import Mathlib

/-!
Shallow embedding of the `vigil` quote-context pricing engines:
the edge-spread engine (`programs/ncn-uptime-matcher/src/uptime_pricing.rs`)
and the regime-multiplier engine
(`programs/restaking-yield-matcher/src/yield_pricing.rs`).

Machine integers are modelled as `Nat` with explicit truncation at the
width where the Rust code narrows or wraps; Rust `saturating_add` /
`saturating_sub` and `checked_mul` are modelled explicitly.  Account keys
(`Pubkey`) are modelled as `Nat`.  Each instruction handler becomes a pure
function from the context record plus decoded call arguments to
`Except MErr Ctx`; malformed-call plumbing (payload length, account-count,
account writability) is below the level of the decoded-call embedding.

Helpers from the `matcher_common` crate are not part of the sources under
verification; they are modelled from the specification and are marked
`Modelled from the spec:` in their doc comments.
-/

/-- `2^32`, the number of values of a Rust `u32`. -/
def U32 : Nat := 4294967296

/-- `2^64`, the number of values of a Rust `u64`. -/
def U64 : Nat := 18446744073709551616

/-- `2^128`, the number of values of a Rust `u128`. -/
def U128 : Nat := 340282366920938463463374607431768211456

/-- Rust `u64::saturating_add` (on in-range operands). -/
def satAdd64 (a b : Nat) : Nat := min (a + b) (U64 - 1)

/-- Rust `u128::checked_mul`, then `unwrap_or(0)` as the source writes it. -/
def checkedMul128or0 (a b : Nat) : Nat := if a * b < U128 then a * b else 0

/-- Error codes surfaced by the two engines (their `errors.rs` variants
plus the generic platform errors the handlers return). -/
inductive MErr where
  | NotEnoughAccountKeys
  | InvalidInstructionData
  | MissingRequiredSignature
  | UninitializedAccount
  | InvalidAccountData
  | AuthorizationError
  | AlreadyInitialized
  | MarketResolved
  | InvalidProbability
  | ProbabilityNotSet
  | OracleStale
  | OracleMismatch
  | OracleAccountMismatch
  | OracleNotSynced
  | InvalidOutcome
  | InvalidSignalSeverity
  | InvalidRegime
  | ArithmeticOverflow
deriving DecidableEq, Repr

deriving instance DecidableEq for Except

/-- Modelled from the spec: `matcher_common::verify_lp_pda` is not under
`src/`.  Per the spec (§4.1), it verifies the stored type tag and fails
with an authorization error unless the caller identity equals the stored
owner identity and the caller has cryptographically signed the call. -/
def verify_lp_pda (magic expected caller : Nat) (signed : Bool) (lp : Nat) :
    Except MErr Unit :=
  if magic ≠ expected then .error .UninitializedAccount
  else if signed ∧ caller = lp then .ok () else .error .AuthorizationError

/-- Modelled from the spec: `matcher_common::compute_exec_price` is not
under `src/`.  Per the spec (§4.2/§4.3),
`exec_price = floor(mark · (10_000 + total_spread) / 10_000)` with the
product taken at wide (u128) precision; overflow during the multiply fails
with `ArithmeticOverflow`. -/
def compute_exec_price (mark total_spread : Nat) : Except MErr Nat :=
  if mark * (10000 + total_spread) < U128 then
    .ok (mark * (10000 + total_spread) / 10000)
  else .error .ArithmeticOverflow

namespace Uptime

/-- `"NCNUMATC"` magic constant of the edge-spread engine
(`ncn-uptime-matcher/src/state.rs`). -/
def UPTIME_MATCHER_MAGIC : Nat := 0x4e434e554d415443

/-- Maximum probability value (100% uptime), `state.rs`. -/
def MAX_PROBABILITY : Nat := 1000000

/-- Highest signal severity (`SIGNAL_CRITICAL`), `state.rs`. -/
def SIGNAL_CRITICAL : Nat := 3

/-- The 320-byte edge-spread context record, one field per byte region the
source reads or writes (offsets from `ncn-uptime-matcher/src/state.rs`).
`resolution_timestamp` is kept as its raw little-endian u64 image (the
engine only stores it, never interprets its sign). -/
structure Ctx where
  returnData : Nat
  magic : Nat
  version : Nat
  mode : Nat
  lp_pda : Nat
  base_spread : Nat
  edge_spread : Nat
  max_spread : Nat
  impact_k : Nat
  current_uptime : Nat
  uptime_mark : Nat
  last_update_slot : Nat
  resolution_timestamp : Nat
  is_resolved : Nat
  resolution_outcome : Nat
  pad162 : Nat
  signal_severity : Nat
  signal_adjusted_spread : Nat
  liquidity : Nat
  max_fill : Nat
  ncn_oracle : Nat
  reserved : Nat
deriving DecidableEq, Repr

/-- Edge factor of `process_match` (`uptime_pricing.rs` lines 170-185):
`1 / (p·(1-p)·4)` in 1e6 fixed point, capped at 10×.  The u128
subtraction `MAX_PROBABILITY as u128 - p` wraps modulo `2^128`, and both
`checked_mul`s fall back to `0` exactly as the source writes them. -/
def edge_factor (uptime_e6 : Nat) : Nat :=
  let p := uptime_e6
  let one_minus_p := (MAX_PROBABILITY + U128 - p) % U128
  let edge_denominator := checkedMul128or0 (checkedMul128or0 p one_minus_p) 4
      / 1000000000000
  if edge_denominator > 0 then min (1000000 / edge_denominator) 10000000
  else 10000000

/-- `adjusted_edge` of `process_match` (lines 187-190): the adjustment
spread scaled by the edge factor, u128 `checked_mul` with `unwrap_or(0)`. -/
def adjusted_edge (edge_spread uptime_e6 : Nat) : Nat :=
  checkedMul128or0 edge_spread (edge_factor uptime_e6) / 1000000

/-- `total_spread` of `process_match` (lines 192-196):
`min(base + edge_adjustment + signal_adjustment, max_spread)` with
saturating u64 additions; `adjusted_edge as u64` narrows modulo `2^64`. -/
def total_spread (base_spread edge_spread max_spread uptime_e6 signal_adj : Nat) : Nat :=
  min (satAdd64 (satAdd64 base_spread (adjusted_edge edge_spread uptime_e6 % U64))
        signal_adj)
    max_spread

/-- Execution price of `process_match` (lines 198-204):
`mark · (10_000 + total_spread) / 10_000` at u128 precision with the
multiply checked (`ArithmeticOverflow` on failure) and the result narrowed
to u64. -/
def exec_price (uptime_e6 spread : Nat) : Except MErr Nat :=
  let spread_mult := satAdd64 10000 spread
  if uptime_e6 * spread_mult < U128 then
    .ok (uptime_e6 * spread_mult / 10000 % U64)
  else .error .ArithmeticOverflow

/-- Decoded call arguments of Match: the LP account key, whether it
signed, and the platform clock slot. -/
structure MatchArgs where
  caller : Nat
  signed : Bool
  slot : Nat
deriving DecidableEq, Repr

/-- `process_match` of the edge-spread engine (`uptime_pricing.rs`
lines 108-221): authorization gate, resolution gate, probability-set gate,
staleness gate (`saturating_sub`, window 200 slots), then the edge-spread
price, written to the return-data region. -/
def process_match (c : Ctx) (a : MatchArgs) : Except MErr Ctx :=
  match verify_lp_pda c.magic UPTIME_MATCHER_MAGIC a.caller a.signed c.lp_pda with
  | .error e => .error e
  | .ok () =>
    if c.is_resolved = 1 then .error .MarketResolved
    else if c.current_uptime = 0 then .error .ProbabilityNotSet
    else if a.slot - c.last_update_slot > 200 then .error .OracleStale
    else
      match exec_price c.current_uptime
          (total_spread c.base_spread c.edge_spread c.max_spread
            c.current_uptime c.signal_adjusted_spread) with
      | .error e => .error e
      | .ok px => .ok { c with returnData := px }

/-- Decoded payload and accounts of UptimeSync (tag 0x03). -/
structure SyncArgs where
  oracle : Nat
  new_uptime : Nat
  signal_severity : Nat
  signal_spread : Nat
  slot : Nat
deriving DecidableEq, Repr

/-- `process_uptime_sync` (`uptime_pricing.rs` lines 232-310): magic gate,
resolution gate, stored-oracle identity gate, probability bound, severity
bound; on success updates uptime, mark, last-update slot and the two
signal fields. -/
def process_uptime_sync (c : Ctx) (a : SyncArgs) : Except MErr Ctx :=
  if c.magic ≠ UPTIME_MATCHER_MAGIC then .error .UninitializedAccount
  else if c.is_resolved = 1 then .error .MarketResolved
  else if a.oracle ≠ c.ncn_oracle then .error .OracleMismatch
  else if a.new_uptime > MAX_PROBABILITY then .error .InvalidProbability
  else if a.signal_severity > SIGNAL_CRITICAL then .error .InvalidSignalSeverity
  else .ok { c with
    current_uptime := a.new_uptime
    uptime_mark := a.new_uptime
    last_update_slot := a.slot
    signal_severity := a.signal_severity
    signal_adjusted_spread := a.signal_spread }

/-- Decoded payload and accounts of Resolve (tag 0x04). -/
structure ResolveArgs where
  oracle : Nat
  oracle_signed : Bool
  outcome : Nat
deriving DecidableEq, Repr

/-- `process_resolve` (`uptime_pricing.rs` lines 319-386): oracle must
sign, magic gate, resolution gate, stored-oracle identity gate, outcome in
`{0,1}`; on success sets the resolution flag and outcome and freezes
uptime and mark at `0` (SLASHED) or `1_000_000` (SAFE). -/
def process_resolve (c : Ctx) (a : ResolveArgs) : Except MErr Ctx :=
  if ¬a.oracle_signed then .error .MissingRequiredSignature
  else if c.magic ≠ UPTIME_MATCHER_MAGIC then .error .UninitializedAccount
  else if c.is_resolved = 1 then .error .MarketResolved
  else if a.oracle ≠ c.ncn_oracle then .error .OracleMismatch
  else if a.outcome > 1 then .error .InvalidOutcome
  else
    let final_probability := if a.outcome = 1 then MAX_PROBABILITY else 0
    .ok { c with
      is_resolved := 1
      resolution_outcome := a.outcome
      current_uptime := final_probability
      uptime_mark := final_probability }

/-- Decoded payload and accounts of Init (tag 0x02). -/
structure InitArgs where
  lp : Nat
  mode : Nat
  base_spread : Nat
  edge_spread : Nat
  max_spread : Nat
  impact_k : Nat
  initial_uptime : Nat
  resolution_timestamp : Nat
  liquidity : Nat
  max_fill : Nat
  ncn_oracle : Nat
  slot : Nat
deriving DecidableEq, Repr

/-- `process_init` (`uptime_pricing.rs` lines 27-102).  The
`matcher_common::verify_init_preconditions` and `write_header` helpers are
not under `src/`; they are modelled from the spec (§4.1): creation fails
with `AlreadyInitialized` when the buffer already carries a valid type
tag, and the header write stores the tag, version, mode and owner
identity (version modelled as `1`, return-data region cleared).  The
probability bound is checked by the source itself (lines 44-48). -/
def process_init (prev : Ctx) (a : InitArgs) : Except MErr Ctx :=
  if prev.magic = UPTIME_MATCHER_MAGIC then .error .AlreadyInitialized
  else if a.initial_uptime > MAX_PROBABILITY then .error .InvalidProbability
  else .ok {
    returnData := 0
    magic := UPTIME_MATCHER_MAGIC
    version := 1
    mode := a.mode
    lp_pda := a.lp
    base_spread := a.base_spread
    edge_spread := a.edge_spread
    max_spread := a.max_spread
    impact_k := a.impact_k
    current_uptime := a.initial_uptime
    uptime_mark := a.initial_uptime
    last_update_slot := a.slot
    resolution_timestamp := a.resolution_timestamp
    is_resolved := 0
    resolution_outcome := 0
    pad162 := 0
    signal_severity := 0
    signal_adjusted_spread := 0
    liquidity := a.liquidity
    max_fill := a.max_fill
    ncn_oracle := a.ncn_oracle
    reserved := 0 }

end Uptime

namespace Yield

/-- `"RSTKMATC"` magic constant of the regime-multiplier engine
(`restaking-yield-matcher/src/state.rs`). -/
def YIELD_MATCHER_MAGIC : Nat := 0x5253544B4d415443

/-- Yield volatility regime (`state.rs` lines 29-35). -/
inductive YieldRegime where
  | VeryLow
  | Low
  | Normal
  | High
  | Extreme
deriving DecidableEq, Repr

/-- `YieldRegime::from_u8` (`state.rs` lines 38-47); out-of-range codes
default to `Normal`. -/
def YieldRegime.from_u8 (v : Nat) : YieldRegime :=
  match v with
  | 0 => .VeryLow
  | 1 => .Low
  | 2 => .Normal
  | 3 => .High
  | 4 => .Extreme
  | _ => .Normal

/-- `YieldRegime::spread_multiplier` (`state.rs` lines 51-59), scale 100. -/
def YieldRegime.spread_multiplier : YieldRegime → Nat
  | .VeryLow => 50
  | .Low => 75
  | .Normal => 100
  | .High => 150
  | .Extreme => 250

/-- The 320-byte regime-multiplier context record, one field per byte
region the source reads or writes (offsets from
`restaking-yield-matcher/src/state.rs`). -/
structure Ctx where
  returnData : Nat
  magic : Nat
  version : Nat
  mode : Nat
  lp_pda : Nat
  base_spread : Nat
  yield_vol_spread : Nat
  max_spread : Nat
  impact_k : Nat
  current_yield : Nat
  yield_mark : Nat
  last_update_slot : Nat
  yield_regime : Nat
  yield_7d_avg : Nat
  yield_30d_avg : Nat
  liquidity : Nat
  max_fill : Nat
  ncn_yield_feed : Nat
  ncn_performance_feed : Nat
  reserved : Nat
deriving DecidableEq, Repr

/-- `adjusted_yield_vol` of `process_match` (`yield_pricing.rs` lines
153-157): the vol spread scaled by the regime multiplier, with the u64
`checked_mul` surfacing `ArithmeticOverflow`. -/
def adjusted_yield_vol (yield_vol_spread : Nat) (r : YieldRegime) : Except MErr Nat :=
  if yield_vol_spread * r.spread_multiplier < U64 then
    .ok (yield_vol_spread * r.spread_multiplier / 100)
  else .error .ArithmeticOverflow

/-- `total_spread` of `process_match` (lines 159-162):
`min(base + adjusted_yield_vol, max_spread)` with a saturating u64 add. -/
def total_spread (base_spread adj max_spread : Nat) : Nat :=
  min (satAdd64 base_spread adj) max_spread

/-- Decoded call arguments of Match for the regime-multiplier engine. -/
structure MatchArgs where
  caller : Nat
  signed : Bool
  slot : Nat
deriving DecidableEq, Repr

/-- `process_match` of the regime-multiplier engine (`yield_pricing.rs`
lines 100-182): authorization gate, oracle-synced gate, staleness gate
(`saturating_sub`, window 100 slots), regime-scaled spread, then the
shared `compute_exec_price`, written to the return-data region. -/
def process_match (c : Ctx) (a : MatchArgs) : Except MErr Ctx :=
  match verify_lp_pda c.magic YIELD_MATCHER_MAGIC a.caller a.signed c.lp_pda with
  | .error e => .error e
  | .ok () =>
    if c.yield_mark = 0 then .error .OracleNotSynced
    else if a.slot - c.last_update_slot > 100 then .error .OracleStale
    else
      match adjusted_yield_vol c.yield_vol_spread (YieldRegime.from_u8 c.yield_regime) with
      | .error e => .error e
      | .ok adj =>
        match compute_exec_price c.yield_mark (total_spread c.base_spread adj c.max_spread) with
        | .error e => .error e
        | .ok px => .ok { c with returnData := px }

/-- Decoded payload and accounts of OracleSync (tag 0x03). -/
structure SyncArgs where
  yield_feed : Nat
  performance_feed : Nat
  current_yield : Nat
  yield_mark : Nat
  regime : Nat
  yield_7d : Nat
  yield_30d : Nat
  slot : Nat
deriving DecidableEq, Repr

/-- `process_oracle_sync` (`yield_pricing.rs` lines 196-285): magic gate,
both stored oracle-feed identities must match the presented accounts
(`OracleAccountMismatch` otherwise), regime code must be ≤ 4
(`InvalidRegime` otherwise); on success updates current yield, mark,
last-update slot, regime and the 7-day/30-day averages. -/
def process_oracle_sync (c : Ctx) (a : SyncArgs) : Except MErr Ctx :=
  if c.magic ≠ YIELD_MATCHER_MAGIC then .error .UninitializedAccount
  else if a.yield_feed ≠ c.ncn_yield_feed then .error .OracleAccountMismatch
  else if a.performance_feed ≠ c.ncn_performance_feed then .error .OracleAccountMismatch
  else if a.regime > 4 then .error .InvalidRegime
  else .ok { c with
    current_yield := a.current_yield
    yield_mark := a.yield_mark
    last_update_slot := a.slot
    yield_regime := a.regime
    yield_7d_avg := a.yield_7d
    yield_30d_avg := a.yield_30d }

end Yield

namespace Uptime

/-- A well-formed edge-spread context with the spec's scenario parameters
`base=20, adjustment=30, max=500`, probability `p` and signal-adjusted
spread `signal`. -/
def sampleCtx (p signal : Nat) : Ctx :=
  { returnData := 0, magic := UPTIME_MATCHER_MAGIC, version := 1, mode := 0,
    lp_pda := 7, base_spread := 20, edge_spread := 30, max_spread := 500,
    impact_k := 0, current_uptime := p, uptime_mark := p,
    last_update_slot := 100, resolution_timestamp := 0, is_resolved := 0,
    resolution_outcome := 0, pad162 := 0, signal_severity := 0,
    signal_adjusted_spread := signal, liquidity := 0, max_fill := 0,
    ncn_oracle := 9, reserved := 0 }

/-- The sample context after a successful SAFE resolution. -/
def resolvedCtx : Ctx :=
  { sampleCtx 1000000 0 with is_resolved := 1, resolution_outcome := 1 }

/-- `total_spread` is capped by `max_spread` outright. -/
lemma uptime_total_spread_le (b e m p s : Nat) : total_spread b e m p s ≤ m :=
  min_le_right _ _

end Uptime

namespace Yield

/-- A well-formed regime-multiplier context with the spec's scenario
parameters `base=20, adjustment=30, max=200, mark=800_000_000` and regime
code `r`. -/
def sampleCtx (r : Nat) : Ctx :=
  { returnData := 0, magic := YIELD_MATCHER_MAGIC, version := 1, mode := 0,
    lp_pda := 7, base_spread := 20, yield_vol_spread := 30, max_spread := 200,
    impact_k := 0, current_yield := 800, yield_mark := 800000000,
    last_update_slot := 100, yield_regime := r, yield_7d_avg := 0,
    yield_30d_avg := 0, liquidity := 0, max_fill := 0,
    ncn_yield_feed := 11, ncn_performance_feed := 12, reserved := 0 }

/-- `total_spread` is capped by `max_spread` outright. -/
lemma yield_total_spread_le (b a m : Nat) : total_spread b a m ≤ m :=
  min_le_right _ _

end Yield

/-- C1: the edge-spread engine's Match with parameters `base_spread=20`,
`adjustment_spread=30`, `max_spread=500` computes, per the source's
edge-factor / total-spread / execution-price formulas: at `p=500_000`,
`edge_factor=1_000_000`, `total_spread=50`, `exec_price=502_500`; at
`p=995_000`, `edge_factor=10_000_000`, `total_spread=320`,
`exec_price=1_026_840`; at `p=100_000`, `exec_price=103_200`; and with
`signal_adjusted_spread=200` at `p=995_000`, `total_spread=500` (capped)
and `exec_price=1_044_750` — each checked both on the pure pricing
functions and end to end through `process_match`. -/
theorem uptime_match_concrete_scenarios :
    Uptime.edge_factor 500000 = 1000000 ∧
    Uptime.total_spread 20 30 500 500000 0 = 50 ∧
    Uptime.exec_price 500000 (Uptime.total_spread 20 30 500 500000 0) = .ok 502500 ∧
    Uptime.edge_factor 995000 = 10000000 ∧
    Uptime.total_spread 20 30 500 995000 0 = 320 ∧
    Uptime.exec_price 995000 (Uptime.total_spread 20 30 500 995000 0) = .ok 1026840 ∧
    Uptime.exec_price 100000 (Uptime.total_spread 20 30 500 100000 0) = .ok 103200 ∧
    Uptime.total_spread 20 30 500 995000 200 = 500 ∧
    Uptime.exec_price 995000 (Uptime.total_spread 20 30 500 995000 200) = .ok 1044750 ∧
    Uptime.process_match (Uptime.sampleCtx 500000 0) ⟨7, true, 150⟩ = .ok { (Uptime.sampleCtx 500000 0) with returnData := 502500 } ∧
    Uptime.process_match (Uptime.sampleCtx 995000 0) ⟨7, true, 150⟩ = .ok { (Uptime.sampleCtx 995000 0) with returnData := 1026840 } ∧
    Uptime.process_match (Uptime.sampleCtx 100000 0) ⟨7, true, 150⟩ = .ok { (Uptime.sampleCtx 100000 0) with returnData := 103200 } ∧
    Uptime.process_match (Uptime.sampleCtx 995000 200) ⟨7, true, 150⟩ = .ok { (Uptime.sampleCtx 995000 200) with returnData := 1044750 } :=
  ⟨by decide, by decide, rfl, by decide, by decide, rfl, rfl, by decide, rfl,
    rfl, rfl, rfl, rfl⟩

/-- C3: in both engines' Match, the `total_spread` fed into the execution
price is capped at the stored `max_spread` for every combination of base
spread, adjustment/edge contribution, probability and signal-adjusted
spread; the intermediate additions are the saturating `satAdd64`, so no
wrap can defeat the cap. -/
theorem total_spread_never_exceeds_max :
    (∀ b e m p s, Uptime.total_spread b e m p s ≤ m) ∧
    (∀ b a m, Yield.total_spread b a m ≤ m) :=
  ⟨fun b e m p s => Uptime.uptime_total_spread_le b e m p s,
    fun b a m => Yield.yield_total_spread_le b a m⟩

/-- Every regime multiplier is at most the `Extreme` one (250). -/
lemma Yield.spread_multiplier_le (r : Yield.YieldRegime) : r.spread_multiplier ≤ 250 := by
  cases r <;> decide

/-- The u64 `checked_mul` in `adjusted_yield_vol` cannot overflow for a
u32-width vol spread. -/
lemma Yield.adjusted_yield_vol_ok (v : Nat) (hv : v < U32) (r : Yield.YieldRegime) :
    Yield.adjusted_yield_vol v r = .ok (v * r.spread_multiplier / 100) := by
  unfold Yield.adjusted_yield_vol
  rw [if_pos ?_]
  have h1 : v * r.spread_multiplier ≤ v * 250 := Nat.mul_le_mul_left _ (Yield.spread_multiplier_le r)
  have h2 : v * 250 < U64 := by unfold U64 U32 at *; omega
  omega

/-- The wide multiply in `compute_exec_price` cannot overflow for a
u64-width mark and a u32-width spread. -/
lemma compute_exec_price_ok (mark t : Nat) (hmark : mark < U64) (ht : t < U32) :
    compute_exec_price mark t = .ok (mark * (10000 + t) / 10000) := by
  unfold compute_exec_price
  rw [if_pos ?_]
  calc mark * (10000 + t) ≤ mark * (10000 + U32) := Nat.mul_le_mul_left _ (by omega)
  _ ≤ (U64 - 1) * (10000 + U32) := Nat.mul_le_mul_right _ (by omega)
  _ < U128 := by norm_num [U64, U32, U128]

/-- `compute_exec_price` applied to a `max_spread`-capped total spread. -/
lemma Yield.compute_capped_ok (mark m : Nat) (hmark : mark < U64) (hm : m < U32) (b adj : Nat) :
    compute_exec_price mark (Yield.total_spread b adj m) =
      .ok (mark * (10000 + Yield.total_spread b adj m) / 10000) :=
  compute_exec_price_ok _ _ hmark (lt_of_le_of_lt (Yield.yield_total_spread_le _ _ _) hm)

/-- The regime-multiplier Match price as a function of the multiplier. -/
def Yield.regimePrice (b v m mark mult : Nat) : Nat :=
  mark * (10000 + min (satAdd64 b (v * mult / 100)) m) / 10000

/-- `regimePrice` is monotone in the multiplier. -/
lemma Yield.regimePrice_mono (b v m mark : Nat) {m1 m2 : Nat} (h : m1 ≤ m2) :
    Yield.regimePrice b v m mark m1 ≤ Yield.regimePrice b v m mark m2 := by
  unfold Yield.regimePrice
  refine Nat.div_le_div_right (Nat.mul_le_mul_left _ (Nat.add_le_add_left ?_ _))
  have h1 : v * m1 / 100 ≤ v * m2 / 100 := Nat.div_le_div_right (Nat.mul_le_mul_left _ h)
  have h2 : satAdd64 b (v * m1 / 100) ≤ satAdd64 b (v * m2 / 100) := by
    unfold satAdd64
    omega
  exact min_le_min h2 le_rfl

/-- Under the Match preconditions and the width bounds of the stored
fields, the regime-multiplier `process_match` succeeds and writes exactly
`regimePrice` at the stored regime's multiplier. -/
lemma Yield.match_ok (c : Yield.Ctx) (a : Yield.MatchArgs)
    (hmagic : c.magic = Yield.YIELD_MATCHER_MAGIC) (hsig : a.signed = true)
    (hcaller : a.caller = c.lp_pda) (hmark0 : c.yield_mark ≠ 0)
    (hfresh : a.slot - c.last_update_slot ≤ 100)
    (hmarkw : c.yield_mark < U64) (hvol : c.yield_vol_spread < U32) (hmax : c.max_spread < U32) :
    Yield.process_match c a = .ok { c with returnData := Yield.regimePrice c.base_spread c.yield_vol_spread c.max_spread c.yield_mark (Yield.YieldRegime.from_u8 c.yield_regime).spread_multiplier } := by
  have hv : verify_lp_pda c.magic Yield.YIELD_MATCHER_MAGIC a.caller a.signed c.lp_pda = .ok () := by
    unfold verify_lp_pda
    rw [if_neg (by simp [hmagic]), if_pos (by simp [hsig, hcaller])]
  simp only [Yield.process_match, hv]
  rw [if_neg hmark0, if_neg (by omega)]
  simp only [Yield.adjusted_yield_vol_ok c.yield_vol_spread hvol,
    Yield.compute_capped_ok c.yield_mark c.max_spread hmarkw hmax]
  rfl

/-- C5: in the regime-multiplier engine, for any fixed base spread,
adjustment spread, max spread and non-zero fresh mark (within their
stored widths), the execution price returned by Match is monotone in the
stored regime code: with multipliers `VeryLow=50, Low=75, Normal=100,
High=150, Extreme=250`, the prices satisfy
`exec(Extreme) ≥ exec(High) ≥ exec(Normal) ≥ exec(Low) ≥ exec(VeryLow)`. -/
theorem yield_match_regime_monotone :
    ∀ (c : Yield.Ctx) (a : Yield.MatchArgs),
      c.magic = Yield.YIELD_MATCHER_MAGIC → a.signed = true → a.caller = c.lp_pda →
      c.yield_mark ≠ 0 → a.slot - c.last_update_slot ≤ 100 →
      c.yield_mark < U64 → c.yield_vol_spread < U32 → c.max_spread < U32 →
      ∃ e0 e1 e2 e3 e4,
        Yield.process_match { c with yield_regime := 0 } a = .ok { c with yield_regime := 0, returnData := e0 } ∧
        Yield.process_match { c with yield_regime := 1 } a = .ok { c with yield_regime := 1, returnData := e1 } ∧
        Yield.process_match { c with yield_regime := 2 } a = .ok { c with yield_regime := 2, returnData := e2 } ∧
        Yield.process_match { c with yield_regime := 3 } a = .ok { c with yield_regime := 3, returnData := e3 } ∧
        Yield.process_match { c with yield_regime := 4 } a = .ok { c with yield_regime := 4, returnData := e4 } ∧
        e0 ≤ e1 ∧ e1 ≤ e2 ∧ e2 ≤ e3 ∧ e3 ≤ e4 := by
  intro c a hmagic hsig hcaller hmark0 hfresh hmarkw hvol hmax
  refine ⟨Yield.regimePrice c.base_spread c.yield_vol_spread c.max_spread c.yield_mark 50,
    Yield.regimePrice c.base_spread c.yield_vol_spread c.max_spread c.yield_mark 75,
    Yield.regimePrice c.base_spread c.yield_vol_spread c.max_spread c.yield_mark 100,
    Yield.regimePrice c.base_spread c.yield_vol_spread c.max_spread c.yield_mark 150,
    Yield.regimePrice c.base_spread c.yield_vol_spread c.max_spread c.yield_mark 250,
    ?_, ?_, ?_, ?_, ?_, ?_, ?_, ?_, ?_⟩
  · exact Yield.match_ok _ a hmagic hsig hcaller hmark0 hfresh hmarkw hvol hmax
  · exact Yield.match_ok _ a hmagic hsig hcaller hmark0 hfresh hmarkw hvol hmax
  · exact Yield.match_ok _ a hmagic hsig hcaller hmark0 hfresh hmarkw hvol hmax
  · exact Yield.match_ok _ a hmagic hsig hcaller hmark0 hfresh hmarkw hvol hmax
  · exact Yield.match_ok _ a hmagic hsig hcaller hmark0 hfresh hmarkw hvol hmax
  · exact Yield.regimePrice_mono _ _ _ _ (by decide)
  · exact Yield.regimePrice_mono _ _ _ _ (by decide)
  · exact Yield.regimePrice_mono _ _ _ _ (by decide)
  · exact Yield.regimePrice_mono _ _ _ _ (by decide)

/-- Witness for C5: the regime price ladder at the concrete sample
context (`base=20, adjustment=30, max=200, mark=800_000_000`). -/
theorem yield_match_regime_monotone_witness :
    ∃ e0 e1 e2 e3 e4,
      Yield.process_match { (Yield.sampleCtx 2) with yield_regime := 0 } ⟨7, true, 150⟩ = .ok { (Yield.sampleCtx 2) with yield_regime := 0, returnData := e0 } ∧
      Yield.process_match { (Yield.sampleCtx 2) with yield_regime := 1 } ⟨7, true, 150⟩ = .ok { (Yield.sampleCtx 2) with yield_regime := 1, returnData := e1 } ∧
      Yield.process_match { (Yield.sampleCtx 2) with yield_regime := 2 } ⟨7, true, 150⟩ = .ok { (Yield.sampleCtx 2) with yield_regime := 2, returnData := e2 } ∧
      Yield.process_match { (Yield.sampleCtx 2) with yield_regime := 3 } ⟨7, true, 150⟩ = .ok { (Yield.sampleCtx 2) with yield_regime := 3, returnData := e3 } ∧
      Yield.process_match { (Yield.sampleCtx 2) with yield_regime := 4 } ⟨7, true, 150⟩ = .ok { (Yield.sampleCtx 2) with yield_regime := 4, returnData := e4 } ∧
      e0 ≤ e1 ∧ e1 ≤ e2 ∧ e2 ≤ e3 ∧ e3 ≤ e4 :=
  yield_match_regime_monotone (Yield.sampleCtx 2) ⟨7, true, 150⟩
    rfl rfl rfl (by decide) (by decide) (by decide) (by decide) (by decide)

/-- C2 counterexample: on an already-resolved context, a Resolve call whose
oracle account has not signed fails with `MissingRequiredSignature` — not
with `MarketResolved` as the claim states — because the signer gate
(`uptime_pricing.rs` lines 335-338) precedes the resolution gate
(lines 347-350). -/
theorem uptime_second_resolve_unsigned_cex :
    Uptime.process_resolve Uptime.resolvedCtx ⟨9, false, 1⟩ = .error .MissingRequiredSignature ∧
    Uptime.process_resolve Uptime.resolvedCtx ⟨9, false, 1⟩ ≠ .error .MarketResolved := by
  decide

/-- C2 (amended): resolution of the edge-spread engine is terminal — once
the resolution flag is set, every subsequent Resolve whose oracle account
signs the call (on the initialized context) fails with `MarketResolved`,
and no subsequent Resolve, Match or Sync ever succeeds (hence none
modifies the context). -/
theorem uptime_resolution_terminal :
    (∀ (c : Uptime.Ctx) (a : Uptime.ResolveArgs), c.is_resolved = 1 →
      c.magic = Uptime.UPTIME_MATCHER_MAGIC → a.oracle_signed = true →
      Uptime.process_resolve c a = .error .MarketResolved) ∧
    (∀ (c : Uptime.Ctx) (a : Uptime.ResolveArgs) (c' : Uptime.Ctx), c.is_resolved = 1 →
      Uptime.process_resolve c a ≠ .ok c') ∧
    (∀ (c : Uptime.Ctx) (a : Uptime.MatchArgs) (c' : Uptime.Ctx), c.is_resolved = 1 →
      Uptime.process_match c a ≠ .ok c') ∧
    (∀ (c : Uptime.Ctx) (a : Uptime.SyncArgs) (c' : Uptime.Ctx), c.is_resolved = 1 →
      Uptime.process_uptime_sync c a ≠ .ok c') := by
  refine ⟨?_, ?_, ?_, ?_⟩
  · intro c a h1 h2 h3
    unfold Uptime.process_resolve
    rw [if_neg (by simp [h3]), if_neg (by simp [h2]), if_pos h1]
  · intro c a c' h1 h
    simp only [Uptime.process_resolve, h1] at h
    split at h <;> first | (split at h <;> simp_all) | simp_all
  · intro c a c' h1 h
    simp only [Uptime.process_match] at h
    rcases hv : verify_lp_pda c.magic Uptime.UPTIME_MATCHER_MAGIC a.caller a.signed c.lp_pda with e | u
    · rw [hv] at h; simp at h
    · rw [hv] at h
      rw [if_pos h1] at h
      simp at h
  · intro c a c' h1 h
    simp only [Uptime.process_uptime_sync, h1] at h
    split at h <;> simp_all

/-- Pricing-stage safety of the edge-spread engine: for any probability
`p ≤ 1_000_000` and any spread below the u32 bound, `exec_price` takes the
`ok` branch and returns at least `p`. -/
lemma Uptime.exec_price_ok (p t : Nat) (hp : p ≤ 1000000) (ht : t < U32) :
    ∃ px, Uptime.exec_price p t = .ok px ∧ p ≤ px := by
  have hmul : satAdd64 10000 t = 10000 + t := by
    unfold satAdd64 U64 U32 at *
    omega
  have h1 : p * (10000 + t) ≤ 1000000 * (10000 + t) := Nat.mul_le_mul_right _ hp
  have h2 : p * (10000 + t) < U64 := by
    refine lt_of_le_of_lt h1 ?_
    unfold U64 U32 at *
    omega
  have h3 : p * (10000 + t) < U128 := by
    refine lt_of_lt_of_le h2 ?_
    unfold U64 U128
    omega
  have h4 : p * (10000 + t) / 10000 < U64 :=
    lt_of_le_of_lt (Nat.div_le_self _ _) h2
  refine ⟨p * (10000 + t) / 10000 % U64, ?_, ?_⟩
  · unfold Uptime.exec_price
    rw [hmul, if_pos h3]
  · rw [Nat.mod_eq_of_lt h4]
    calc p = p * 10000 / 10000 := (Nat.mul_div_cancel _ (by norm_num)).symm
    _ ≤ p * (10000 + t) / 10000 := Nat.div_le_div_right (Nat.mul_le_mul_left _ (by omega))

/-- C4: for every probability `p ∈ [0, 1_000_000]` stored as the
edge-spread mark, whenever the Match preconditions hold (authorized
caller, not resolved, `mark ≠ 0`, not stale, and the u32-width bound on
the stored `max_spread` field), `process_match` never takes the
`ArithmeticOverflow` branch — it succeeds outright — and the execution
price it writes satisfies `exec_price ≥ mark`. -/
theorem uptime_match_defined_and_price_ge_mark :
    ∀ (c : Uptime.Ctx) (a : Uptime.MatchArgs),
      c.magic = Uptime.UPTIME_MATCHER_MAGIC → a.signed = true → a.caller = c.lp_pda →
      c.is_resolved ≠ 1 → c.current_uptime ≠ 0 → a.slot - c.last_update_slot ≤ 200 →
      c.current_uptime ≤ 1000000 → c.uptime_mark = c.current_uptime → c.max_spread < U32 →
      ∃ px, Uptime.process_match c a = .ok { c with returnData := px } ∧ c.uptime_mark ≤ px := by
  intro c a hmagic hsig hcaller hres hup0 hfresh hup hmark hmax
  obtain ⟨px, hok, hge⟩ := Uptime.exec_price_ok c.current_uptime
    (Uptime.total_spread c.base_spread c.edge_spread c.max_spread c.current_uptime c.signal_adjusted_spread)
    hup (lt_of_le_of_lt (Uptime.uptime_total_spread_le _ _ _ _ _) hmax)
  refine ⟨px, ?_, hmark ▸ hge⟩
  have hv : verify_lp_pda c.magic Uptime.UPTIME_MATCHER_MAGIC a.caller a.signed c.lp_pda = .ok () := by
    unfold verify_lp_pda
    rw [if_neg (by simp [hmagic]), if_pos (by simp [hsig, hcaller])]
  simp only [Uptime.process_match, hv]
  rw [if_neg hres, if_neg hup0, if_neg (by omega), hok]

/-- Witness for C4: at the concrete sample context with `p = 995_000` the
Match preconditions hold and the theorem yields a successful price of at
least the mark. -/
theorem uptime_match_defined_and_price_ge_mark_witness :
    ∃ px, Uptime.process_match (Uptime.sampleCtx 995000 0) ⟨7, true, 150⟩ =
        .ok { (Uptime.sampleCtx 995000 0) with returnData := px } ∧
      (Uptime.sampleCtx 995000 0).uptime_mark ≤ px :=
  uptime_match_defined_and_price_ge_mark (Uptime.sampleCtx 995000 0) ⟨7, true, 150⟩
    rfl rfl rfl (by decide) (by decide) (by decide) (by decide) rfl (by decide)

/-- C6: the edge-spread engine's Sync on an initialized context fails with
`MarketResolved` if the context is resolved, `OracleMismatch` if the
presented oracle identity differs from the stored one, `InvalidProbability`
if `new_probability > 1_000_000`, `InvalidSignalSeverity` if
`signal_severity > 3`; on success it updates exactly the mark (both uptime
fields), `last_update_slot`, signal severity and signal-adjusted spread.
Each failure aborts before any write, so the record is unchanged. -/
theorem uptime_sync_cases :
    ∀ (c : Uptime.Ctx) (a : Uptime.SyncArgs), c.magic = Uptime.UPTIME_MATCHER_MAGIC →
      ((c.is_resolved = 1 → Uptime.process_uptime_sync c a = .error .MarketResolved) ∧
       (c.is_resolved ≠ 1 → a.oracle ≠ c.ncn_oracle →
         Uptime.process_uptime_sync c a = .error .OracleMismatch) ∧
       (c.is_resolved ≠ 1 → a.oracle = c.ncn_oracle → a.new_uptime > 1000000 →
         Uptime.process_uptime_sync c a = .error .InvalidProbability) ∧
       (c.is_resolved ≠ 1 → a.oracle = c.ncn_oracle → a.new_uptime ≤ 1000000 →
         a.signal_severity > 3 →
         Uptime.process_uptime_sync c a = .error .InvalidSignalSeverity) ∧
       (c.is_resolved ≠ 1 → a.oracle = c.ncn_oracle → a.new_uptime ≤ 1000000 →
         a.signal_severity ≤ 3 →
         Uptime.process_uptime_sync c a = .ok { c with current_uptime := a.new_uptime, uptime_mark := a.new_uptime, last_update_slot := a.slot, signal_severity := a.signal_severity, signal_adjusted_spread := a.signal_spread })) := by
  intro c a hmagic
  have hm : ¬(c.magic ≠ Uptime.UPTIME_MATCHER_MAGIC) := by simp [hmagic]
  refine ⟨?_, ?_, ?_, ?_, ?_⟩
  · intro h1
    unfold Uptime.process_uptime_sync
    rw [if_neg hm, if_pos h1]
  · intro h1 h2
    unfold Uptime.process_uptime_sync
    rw [if_neg hm, if_neg h1, if_pos h2]
  · intro h1 h2 h3
    unfold Uptime.process_uptime_sync
    rw [if_neg hm, if_neg h1, if_neg (by simp [h2]),
      if_pos (by unfold Uptime.MAX_PROBABILITY; omega)]
  · intro h1 h2 h3 h4
    unfold Uptime.process_uptime_sync
    rw [if_neg hm, if_neg h1, if_neg (by simp [h2]),
      if_neg (by unfold Uptime.MAX_PROBABILITY; omega),
      if_pos (by unfold Uptime.SIGNAL_CRITICAL; omega)]
  · intro h1 h2 h3 h4
    unfold Uptime.process_uptime_sync
    rw [if_neg hm, if_neg h1, if_neg (by simp [h2]),
      if_neg (by unfold Uptime.MAX_PROBABILITY; omega),
      if_neg (by unfold Uptime.SIGNAL_CRITICAL; omega)]

/-- Witness for C6: a concrete successful Sync on the sample context
updates exactly the five oracle-derived fields. -/
theorem uptime_sync_cases_witness :
    Uptime.process_uptime_sync (Uptime.sampleCtx 500000 0) ⟨9, 900000, 2, 40, 150⟩ = .ok { (Uptime.sampleCtx 500000 0) with current_uptime := 900000, uptime_mark := 900000, last_update_slot := 150, signal_severity := 2, signal_adjusted_spread := 40 } :=
  (uptime_sync_cases (Uptime.sampleCtx 500000 0) ⟨9, 900000, 2, 40, 150⟩ rfl).2.2.2.2
    (by decide) rfl (by decide) (by decide)

/-- C7: the regime-multiplier engine's Sync on an initialized context
fails with `OracleAccountMismatch` unless both presented oracle accounts
(yield feed and performance feed) equal the stored identities, fails with
`InvalidRegime` if the regime code exceeds 4, and on success updates
exactly the current yield, mark, regime, 7-day and 30-day averages and
`last_update_slot`. -/
theorem yield_sync_cases :
    ∀ (c : Yield.Ctx) (a : Yield.SyncArgs), c.magic = Yield.YIELD_MATCHER_MAGIC →
      ((a.yield_feed ≠ c.ncn_yield_feed →
         Yield.process_oracle_sync c a = .error .OracleAccountMismatch) ∧
       (a.yield_feed = c.ncn_yield_feed → a.performance_feed ≠ c.ncn_performance_feed →
         Yield.process_oracle_sync c a = .error .OracleAccountMismatch) ∧
       (a.yield_feed = c.ncn_yield_feed → a.performance_feed = c.ncn_performance_feed →
         a.regime > 4 → Yield.process_oracle_sync c a = .error .InvalidRegime) ∧
       (a.yield_feed = c.ncn_yield_feed → a.performance_feed = c.ncn_performance_feed →
         a.regime ≤ 4 →
         Yield.process_oracle_sync c a = .ok { c with current_yield := a.current_yield, yield_mark := a.yield_mark, last_update_slot := a.slot, yield_regime := a.regime, yield_7d_avg := a.yield_7d, yield_30d_avg := a.yield_30d })) := by
  intro c a hmagic
  have hm : ¬(c.magic ≠ Yield.YIELD_MATCHER_MAGIC) := by simp [hmagic]
  refine ⟨?_, ?_, ?_, ?_⟩
  · intro h1
    unfold Yield.process_oracle_sync
    rw [if_neg hm, if_pos h1]
  · intro h1 h2
    unfold Yield.process_oracle_sync
    rw [if_neg hm, if_neg (by simp [h1]), if_pos h2]
  · intro h1 h2 h3
    unfold Yield.process_oracle_sync
    rw [if_neg hm, if_neg (by simp [h1]), if_neg (by simp [h2]), if_pos h3]
  · intro h1 h2 h3
    unfold Yield.process_oracle_sync
    rw [if_neg hm, if_neg (by simp [h1]), if_neg (by simp [h2]), if_neg (by omega)]

/-- Witness for C7: a concrete successful Sync on the sample context with
the matching feed identities updates exactly the six oracle-derived
fields. -/
theorem yield_sync_cases_witness :
    Yield.process_oracle_sync (Yield.sampleCtx 2) ⟨11, 12, 900, 900000000, 3, 850, 820, 150⟩ = .ok { (Yield.sampleCtx 2) with current_yield := 900, yield_mark := 900000000, last_update_slot := 150, yield_regime := 3, yield_7d_avg := 850, yield_30d_avg := 820 } :=
  (yield_sync_cases (Yield.sampleCtx 2) ⟨11, 12, 900, 900000000, 3, 850, 820, 150⟩ rfl).2.2.2
    rfl rfl (by decide)

/-- The edge-spread pricing stage can only fail with
`ArithmeticOverflow`. -/
lemma Uptime.exec_price_error (p t : Nat) (e : MErr) :
    Uptime.exec_price p t = .error e → e = .ArithmeticOverflow := by
  intro h
  by_cases hc : p * satAdd64 10000 t < U128
  · simp [Uptime.exec_price, hc] at h
  · simp [Uptime.exec_price, hc] at h
    exact h.symm

/-- The regime scaling stage can only fail with `ArithmeticOverflow`. -/
lemma Yield.adjusted_yield_vol_error (v : Nat) (r : Yield.YieldRegime) (e : MErr) :
    Yield.adjusted_yield_vol v r = .error e → e = .ArithmeticOverflow := by
  intro h
  by_cases hc : v * r.spread_multiplier < U64
  · simp [Yield.adjusted_yield_vol, hc] at h
  · simp [Yield.adjusted_yield_vol, hc] at h
    exact h.symm

/-- The shared price computation can only fail with
`ArithmeticOverflow`. -/
lemma compute_exec_price_error (mark t : Nat) (e : MErr) :
    compute_exec_price mark t = .error e → e = .ArithmeticOverflow := by
  intro h
  by_cases hc : mark * (10000 + t) < U128
  · simp [compute_exec_price, hc] at h
  · simp [compute_exec_price, hc] at h
    exact h.symm

/-- C8: once the earlier Match gates pass (authorized caller; for the
edge-spread engine not resolved and mark set; for the regime-multiplier
engine mark set), Match fails with `OracleStale` exactly when the elapsed
platform time `current_slot − last_update_slot` (Rust `saturating_sub`,
`Nat` subtraction here) strictly exceeds the engine's window — 200 slots
for the edge-spread engine, 100 for the regime-multiplier engine. -/
theorem match_oracle_stale_iff :
    (∀ (c : Uptime.Ctx) (a : Uptime.MatchArgs),
      c.magic = Uptime.UPTIME_MATCHER_MAGIC → a.signed = true → a.caller = c.lp_pda →
      c.is_resolved ≠ 1 → c.current_uptime ≠ 0 →
      (Uptime.process_match c a = .error .OracleStale ↔ a.slot - c.last_update_slot > 200)) ∧
    (∀ (c : Yield.Ctx) (a : Yield.MatchArgs),
      c.magic = Yield.YIELD_MATCHER_MAGIC → a.signed = true → a.caller = c.lp_pda →
      c.yield_mark ≠ 0 →
      (Yield.process_match c a = .error .OracleStale ↔ a.slot - c.last_update_slot > 100)) := by
  constructor
  · intro c a hmagic hsig hcaller hres hup0
    have hv : verify_lp_pda c.magic Uptime.UPTIME_MATCHER_MAGIC a.caller a.signed c.lp_pda = .ok () := by
      unfold verify_lp_pda
      rw [if_neg (by simp [hmagic]), if_pos (by simp [hsig, hcaller])]
    simp only [Uptime.process_match, hv]
    rw [if_neg hres, if_neg hup0]
    constructor
    · intro h
      by_contra hnot
      rw [if_neg hnot] at h
      rcases he : Uptime.exec_price c.current_uptime
          (Uptime.total_spread c.base_spread c.edge_spread c.max_spread c.current_uptime c.signal_adjusted_spread) with e | px
      · have := Uptime.exec_price_error _ _ _ he
        simp [he, this] at h
      · simp [he] at h
    · intro h
      rw [if_pos h]
  · intro c a hmagic hsig hcaller hmark0
    have hv : verify_lp_pda c.magic Yield.YIELD_MATCHER_MAGIC a.caller a.signed c.lp_pda = .ok () := by
      unfold verify_lp_pda
      rw [if_neg (by simp [hmagic]), if_pos (by simp [hsig, hcaller])]
    simp only [Yield.process_match, hv]
    rw [if_neg hmark0]
    constructor
    · intro h
      by_contra hnot
      rw [if_neg hnot] at h
      rcases ha : Yield.adjusted_yield_vol c.yield_vol_spread (Yield.YieldRegime.from_u8 c.yield_regime) with e | adj
      · have := Yield.adjusted_yield_vol_error _ _ _ ha
        simp [ha, this] at h
      · rcases hc : compute_exec_price c.yield_mark (Yield.total_spread c.base_spread adj c.max_spread) with e | px
        · have := compute_exec_price_error _ _ _ hc
          simp [ha, hc, this] at h
        · simp [ha, hc] at h
    · intro h
      rw [if_pos h]

/-- Witness for C8: on the fresh sample contexts a stale clock (400 and
300 elapsed slots respectively) makes both engines' Match fail with
`OracleStale`. -/
theorem match_oracle_stale_iff_witness :
    Uptime.process_match (Uptime.sampleCtx 500000 0) ⟨7, true, 500⟩ = .error .OracleStale ∧
    Yield.process_match (Yield.sampleCtx 2) ⟨7, true, 400⟩ = .error .OracleStale :=
  ⟨(match_oracle_stale_iff.1 (Uptime.sampleCtx 500000 0) ⟨7, true, 500⟩
      rfl rfl rfl (by decide) (by decide)).mpr (by decide),
    (match_oracle_stale_iff.2 (Yield.sampleCtx 2) ⟨7, true, 400⟩
      rfl rfl rfl (by decide)).mpr (by decide)⟩

/-- Frame property of the edge-spread Match: on success only the
return-data region changes. -/
lemma Uptime.uptime_match_frame (c : Uptime.Ctx) (a : Uptime.MatchArgs) (c' : Uptime.Ctx) :
    Uptime.process_match c a = .ok c' → ∃ px, c' = { c with returnData := px } := by
  intro h
  simp only [Uptime.process_match] at h
  rcases hv : verify_lp_pda c.magic Uptime.UPTIME_MATCHER_MAGIC a.caller a.signed c.lp_pda with e | ⟨⟩ <;> rw [hv] at h
  · simp at h
  · repeat' split at h
    all_goals try simp at h
    exact ⟨_, h.symm⟩

/-- Frame property of the regime-multiplier Match: on success only the
return-data region changes. -/
lemma Yield.yield_match_frame (c : Yield.Ctx) (a : Yield.MatchArgs) (c' : Yield.Ctx) :
    Yield.process_match c a = .ok c' → ∃ px, c' = { c with returnData := px } := by
  intro h
  simp only [Yield.process_match] at h
  rcases hv : verify_lp_pda c.magic Yield.YIELD_MATCHER_MAGIC a.caller a.signed c.lp_pda with e | ⟨⟩ <;> rw [hv] at h
  · simp at h
  · repeat' split at h
    all_goals try simp at h
    exact ⟨_, h.symm⟩

/-- C9: a successful Match, in either engine, changes only the
return-data region of the context record: the successor state is the old
record with `returnData` replaced by the computed execution price, every
other field (header, pricing parameters, marks, timestamps,
resolution/regime state, signal/average fields, liquidity fields, oracle
identities, reserved padding) unchanged. -/
theorem match_writes_only_exec_price :
    (∀ (c : Uptime.Ctx) (a : Uptime.MatchArgs) (c' : Uptime.Ctx),
      Uptime.process_match c a = .ok c' → ∃ px, c' = { c with returnData := px }) ∧
    (∀ (c : Yield.Ctx) (a : Yield.MatchArgs) (c' : Yield.Ctx),
      Yield.process_match c a = .ok c' → ∃ px, c' = { c with returnData := px }) :=
  ⟨Uptime.uptime_match_frame, Yield.yield_match_frame⟩

/-- Witness for C9: the concrete successful Match from the sample context
yields exactly the sample context with the return-data region replaced. -/
theorem match_writes_only_exec_price_witness :
    ∃ px, ({ (Uptime.sampleCtx 500000 0) with returnData := 502500 } : Uptime.Ctx) = { (Uptime.sampleCtx 500000 0) with returnData := px } :=
  match_writes_only_exec_price.1 (Uptime.sampleCtx 500000 0) ⟨7, true, 150⟩
    { (Uptime.sampleCtx 500000 0) with returnData := 502500 } (by decide)

/-- Witness for C2 (amended): a signed second Resolve on the concrete
resolved sample context fails with `MarketResolved`, and the concrete
Match and Sync calls on it cannot succeed. -/
theorem uptime_resolution_terminal_witness :
    Uptime.process_resolve Uptime.resolvedCtx ⟨9, true, 0⟩ = .error .MarketResolved ∧
    Uptime.process_match Uptime.resolvedCtx ⟨7, true, 150⟩ ≠ .ok Uptime.resolvedCtx :=
  ⟨uptime_resolution_terminal.1 Uptime.resolvedCtx ⟨9, true, 0⟩ (by decide) (by decide) rfl,
    uptime_resolution_terminal.2.2.1 Uptime.resolvedCtx ⟨7, true, 150⟩ Uptime.resolvedCtx (by decide)⟩

/-- The reachable states of one edge-spread context record: created once
by Init, then mutated only by successful Sync, Resolve and Match calls. -/
inductive Uptime.Reach : Uptime.Ctx → Prop where
  | created : ∀ (prev : Uptime.Ctx) (a : Uptime.InitArgs) (c : Uptime.Ctx),
      Uptime.process_init prev a = .ok c → Uptime.Reach c
  | synced : ∀ (c : Uptime.Ctx) (a : Uptime.SyncArgs) (c' : Uptime.Ctx),
      Uptime.Reach c → Uptime.process_uptime_sync c a = .ok c' → Uptime.Reach c'
  | settled : ∀ (c : Uptime.Ctx) (a : Uptime.ResolveArgs) (c' : Uptime.Ctx),
      Uptime.Reach c → Uptime.process_resolve c a = .ok c' → Uptime.Reach c'
  | quoted : ∀ (c : Uptime.Ctx) (a : Uptime.MatchArgs) (c' : Uptime.Ctx),
      Uptime.Reach c → Uptime.process_match c a = .ok c' → Uptime.Reach c'

/-- C10: in every reachable edge-spread context state, the stored uptime
probability and the mark are at most `1_000_000`: Init rejects larger
initial values with `InvalidProbability`, Sync rejects larger new values
with `InvalidProbability`, Resolve writes only `0` or `1_000_000`, and
Match leaves both fields untouched. -/
theorem uptime_probability_invariant : ∀ (c : Uptime.Ctx), Uptime.Reach c →
    c.current_uptime ≤ 1000000 ∧ c.uptime_mark ≤ 1000000 := by
  intro c h
  induction h with
  | created prev a c hok =>
    simp only [Uptime.process_init] at hok
    split at hok
    · simp at hok
    · split at hok
      · simp at hok
      · rename_i hbound
        simp only [Except.ok.injEq] at hok
        unfold Uptime.MAX_PROBABILITY at hbound
        constructor <;> simp [← hok] <;> omega
  | synced c a c' hr hok ih =>
    simp only [Uptime.process_uptime_sync] at hok
    repeat' split at hok
    all_goals try simp at hok
    rename_i hres horacle hbound hsev
    unfold Uptime.MAX_PROBABILITY at hbound
    constructor <;> simp [← hok] <;> omega
  | settled c a c' hr hok ih =>
    simp only [Uptime.process_resolve] at hok
    repeat' split at hok
    all_goals try simp at hok
    all_goals constructor <;> simp [← hok, Uptime.MAX_PROBABILITY]
  | quoted c a c' hr hok ih =>
    obtain ⟨px, rfl⟩ := Uptime.uptime_match_frame c a c' hok
    exact ih

/-- Witness for C10: the sample context is reachable (it is exactly the
result of a concrete Init call on a blank buffer), so its probability and
mark obey the bound. -/
theorem uptime_probability_invariant_witness :
    (Uptime.sampleCtx 500000 0).current_uptime ≤ 1000000 ∧
      (Uptime.sampleCtx 500000 0).uptime_mark ≤ 1000000 :=
  uptime_probability_invariant (Uptime.sampleCtx 500000 0)
    (Uptime.Reach.created { (Uptime.sampleCtx 0 0) with magic := 0 }
      ⟨7, 0, 20, 30, 500, 0, 500000, 0, 0, 0, 9, 100⟩ (Uptime.sampleCtx 500000 0) (by decide))
